import Mathlib

/-!
Verification development for the browser CRUD application
(StateManager / AppComponent / EventEmitter / validation / FormComponent).

The TypeScript sources are embedded shallowly:

* `FormData` mirrors the `FormData` interface of `Interfaces.ts`.
* The `AppStateManager` class (`StateManager.ts`) becomes the record
  `StateMgr` (in-memory `data`, the `deletedData` pending slot, and the two
  `localStorage` entries `appStateData` / `appStateDeletedData`) together
  with pure state-transformer functions named after its methods.
* Because `deletedData` is typed `any` in the source and is assigned record
  objects, arrays, `null` and `undefined`, the slot is modelled by the
  inductive `Slot`, and the JSON values stored under `appStateDeletedData`
  by the inductive `DItem` (a top-level entry is either a serialized record
  object or a nested array, as produced by `deleteData`'s `push`).
* `new Date().toISOString()` is threaded as an explicit `ts : String`
  parameter; `Date.now()` as an explicit `now : Nat`.
-/

/-- The `FormData` record shape of `Interfaces.ts`.  `age` is a JS `number`
that is produced by `Number.parseInt`, which can be `NaN`; `none` models
`NaN`.  The `restoreData` list is reserved and never inspected, so its
payload type is `Unit`. -/
structure FormData where
  id : String
  name : String
  phone : String
  email : String
  dob : String
  age : Option Int
  country : String
  state : String
  city : String
  zip : String
  restoreData : List Unit
  timeStamp : String
deriving DecidableEq, Repr

/-- One top-level entry of the JSON array persisted under
`appStateDeletedData`: either a serialized record object, or a nested array
(`AppStateManager.deleteData` pushes whatever `this.deletedData` holds,
which `setDeletedData` sets to a whole array). -/
inductive DItem where
  | obj (r : FormData)
  | arr (xs : List DItem)
deriving Repr

/-- The value of the `deletedData : any` field of `AppStateManager`:
`null`/`undefined` (both falsy, collapsed into `Slot.null`), a single
record object, or an array (assigned by `setDeletedData` and `loadData`). -/
inductive Slot where
  | null
  | obj (r : FormData)
  | arr (xs : List DItem)
deriving Repr

/-- JS truthiness of the pending slot, as tested by
`if (this.deletedData)` in `saveData`.  Objects and arrays (even empty
ones) are truthy; `null`/`undefined` are falsy. -/
def slotTruthy : Slot → Bool
  | Slot.null => false
  | Slot.obj _ => true
  | Slot.arr _ => true

/-- The state of the singleton `AppStateManager`: the in-memory `data`
array, the `deletedData` pending slot, and the two `localStorage` entries
(`none` = key absent). -/
structure StateMgr where
  data : List FormData
  deletedData : Slot
  storageData : Option (List FormData)
  storageDeleted : Option (List DItem)
deriving Repr

/-- `AppStateManager.getDeletedData` (StateManager.ts lines 115-120):
reads `appStateDeletedData`, defaulting to `"[]"`, and parses it. -/
def getDeletedData (s : StateMgr) : List DItem :=
  s.storageDeleted.getD []

/-- `AppStateManager.deleteData` (StateManager.ts lines 64-74): reads the
stored deleted array, stamps `this.deletedData.timeStamp`, pushes the slot
value onto the array, writes it back, and nulls the slot.  Setting the
`timeStamp` property on an *array* slot is dropped by `JSON.stringify`, so
only a record slot is actually stamped in storage.  `saveData` calls this
only when the slot is truthy; the `Slot.null` branch is unreachable. -/
def deleteData (s : StateMgr) (ts : String) : StateMgr :=
  match s.deletedData with
  | Slot.null => s
  | Slot.obj r =>
      let stored := getDeletedData s
      { s with storageDeleted := some (stored ++ [DItem.obj { r with timeStamp := ts }]),
               deletedData := Slot.null }
  | Slot.arr xs =>
      let stored := getDeletedData s
      { s with storageDeleted := some (stored ++ [DItem.arr xs]),
               deletedData := Slot.null }

/-- `AppStateManager.saveData` (StateManager.ts lines 52-57): writes the
active list to `appStateData`, then flushes the pending slot through
`deleteData` when the slot is truthy. -/
def saveData (s : StateMgr) (ts : String) : StateMgr :=
  let s1 : StateMgr := { s with storageData := some s.data }
  if slotTruthy s1.deletedData then deleteData s1 ts else s1

/-- `AppStateManager.loadData` (StateManager.ts lines 81-90), run by the
private constructor: parses `appStateData` into `data` and — notably —
parses `appStateDeletedData` into the single `deletedData` slot, so a
non-absent stored history puts a whole *array* into the pending slot. -/
def loadData (sd : Option (List FormData)) (sdd : Option (List DItem)) : StateMgr :=
  { data := sd.getD []
    deletedData := match sdd with
      | none => Slot.null
      | some xs => Slot.arr xs
    storageData := sd
    storageDeleted := sdd }

/-- `AppStateManager.getData` (StateManager.ts lines 97-99): returns
`this.data`. -/
def getData (s : StateMgr) : List FormData :=
  s.data

/-- `getData` viewed as a state operation: it returns `this.data` and has
no effect on the manager's state. -/
def getDataOp (s : StateMgr) : List FormData × StateMgr :=
  (getData s, s)

/-- `AppStateManager.setData` (StateManager.ts lines 106-109): replaces
`this.data` and calls `saveData`. -/
def setData (s : StateMgr) (newData : List FormData) (ts : String) : StateMgr :=
  saveData { s with data := newData } ts

/-- `AppStateManager.setDeletedData` (StateManager.ts lines 126-129):
assigns the given array to the `deletedData` slot and calls `saveData`
(whose flush then *pushes the whole array* onto the stored history). -/
def setDeletedData (s : StateMgr) (newDeletedData : List DItem) (ts : String) : StateMgr :=
  saveData { s with deletedData := Slot.arr newDeletedData } ts

/-- A sample record used for concrete witnesses (field values from the
spec's scenario in section 8). -/
def sampleRec (i : String) : FormData :=
  { id := i
    name := "Ana"
    phone := "5551234567"
    email := "ana@x.com"
    dob := "2000-01-01"
    age := some 24
    country := "USA"
    state := "California"
    city := "Los Angeles"
    zip := "90001"
    restoreData := []
    timeStamp := "2024-01-01T00:00:00.000Z" }

/-- The `find((item) => item.id === id)` lookup used by the AppComponent
handlers. -/
def findById (l : List FormData) (i : String) : Option FormData :=
  l.find? (fun item => item.id == i)

/-- The `filter((item) => item.id !== id)` removal used by the
AppComponent handlers. -/
def removeById (l : List FormData) (i : String) : List FormData :=
  l.filter (fun item => item.id != i)

/-- `AppComponent.addData` (AppComponent.ts lines 204-211), the
`"formSubmit"` listener: prepends the record to the current data and sets
the new list (the table re-render has no state effect). -/
def addData (s : StateMgr) (d : FormData) (ts : String) : StateMgr :=
  let currentData := getData s
  setData s (d :: currentData) ts

/-- The part of the AppComponent's own state that the claims touch: the
state manager and the `dataToBeRestore` field set by `editItem`. -/
structure AppComponentState where
  mgr : StateMgr
  dataToBeRestore : Option FormData
deriving Repr

/-- `AppComponent.editItem` (AppComponent.ts lines 218-226): when the id is
found, remembers the item in `dataToBeRestore` and re-renders the form;
otherwise does nothing. -/
def editItem (a : AppComponentState) (i : String) : AppComponentState :=
  match findById (getData a.mgr) i with
  | some itemToEdit => { a with dataToBeRestore := some itemToEdit }
  | none => a

/-- `AppComponent.handleDeleteData` (AppComponent.ts lines 390-399), the
`"deleteData"` listener: stages the found item (or `undefined`, modelled as
`Slot.null`) in the manager's pending slot, then sets the data filtered by
id — whose `saveData` flushes the staged item into the stored history. -/
def handleDeleteData (s : StateMgr) (i : String) (ts : String) : StateMgr :=
  let currentData := getData s
  let s1 : StateMgr := { s with deletedData := match findById currentData i with
    | some r => Slot.obj r
    | none => Slot.null }
  setData s1 (removeById currentData i) ts

/-- `AppComponent.handleRestoreDeleteData` (AppComponent.ts lines 405-414),
the `"restoreDeleteData"` listener: nulls the pending slot and sets the
active data *filtered by the id* (it removes the id from the active set;
the actual re-adding is done by the separate `"formSubmit"` event emitted
afterwards by `TableComponent.handleRestore`). -/
def handleRestoreDeleteData (s : StateMgr) (i : String) (ts : String) : StateMgr :=
  let currentData := getData s
  let s1 : StateMgr := { s with deletedData := Slot.null }
  setData s1 (removeById currentData i) ts

/-- `value.toLowerCase()`: lowercases each character (the submitted
confirmation text; only ASCII matters here). -/
def jsToLower (s : String) : String :=
  ⟨s.data.map Char.toLower⟩

/-- JS truthiness of `deleteModal.getAttribute("data-id")`: `null` and the
empty string are falsy. -/
def attrTruthy : Option String → Bool
  | none => false
  | some v => v != ""

/-- `AppComponent.confirmDelete` (AppComponent.ts lines 269-302), including
the `"deleteData"` event it emits at the end, whose only registered
listener is `handleDeleteData`.  When the typed confirmation is not
`"delete"` (after `toLowerCase`) or the id attribute is falsy, or the id is
not found in the active data, the state is unchanged. -/
def confirmDelete (s : StateMgr) (input : String) (idAttr : Option String)
    (ts : String) : StateMgr :=
  if jsToLower input == "delete" && attrTruthy idAttr then
    let i := idAttr.getD ""
    let currentData := getData s
    match findById currentData i with
    | some itemToDelete =>
        let s1 := setData s (removeById currentData i) ts
        let currentDeletedData := getDeletedData s1
        let s2 := setDeletedData s1 (DItem.obj itemToDelete :: currentDeletedData.take 2) ts
        handleDeleteData s2 i ts
    | none => s
  else s

/-- The loose comparison `filterdata.id == id` of
`TableComponent.openRestorePopup`: a nested array entry has `undefined` as
its `id`, which never equals the id string. -/
def recIdIs (it : DItem) (i : String) : Bool :=
  match it with
  | DItem.obj r => r.id == i
  | DItem.arr _ => false

/-- The stored record that `TableComponent.openRestorePopup` offers for
restoration: the parsed `appStateDeletedData` entries are filtered by
`filterdata.id == id` and the clicked row is found in the filtered list by
the same id, i.e. the first stored record entry carrying the id. -/
def findRestoreRow (items : List DItem) (i : String) : Option FormData :=
  match (items.filter (fun it => recIdIs it i)).head? with
  | some (DItem.obj r) => some r
  | _ => none

/-- The restore flow of `TableComponent` (part_000): `openRestorePopup`
looks the clicked id up in the stored deleted data; on confirmation
`handleRestore(rowData)` runs `restoreDeleteItem(rowData.id)` — which emits
`"restoreDeleteData"`, handled synchronously by
`AppComponent.handleRestoreDeleteData` — and then emits `"formSubmit"` with
the stored row, handled by `AppComponent.addData`.  When no stored entry
carries the id, the popup offers nothing and no event fires. -/
def tableRestore (s : StateMgr) (i : String) (ts : String) : StateMgr :=
  match findRestoreRow (getDeletedData s) i with
  | none => s
  | some rowData =>
      let s1 := handleRestoreDeleteData s i ts
      addData s1 rowData ts

/-- JS whitespace as recognized by `String.prototype.trim` and `parseInt`
(the ASCII whitespace characters; the exotic Unicode space code points play
no role in this development). -/
def jsWhitespace (c : Char) : Bool :=
  c = ' ' || c = '\t' || c = '\n' || c = '\r' || c = '\x0b' || c = '\x0c'

/-- `value.trim()`: strips whitespace from both ends. -/
def jsTrim (s : String) : String :=
  ⟨((s.data.dropWhile jsWhitespace).reverse.dropWhile jsWhitespace).reverse⟩

def digitToNat (c : Char) : Nat := c.toNat - 48

def natOfDigits (ds : List Char) : Nat :=
  ds.foldl (fun a c => a * 10 + digitToNat c) 0

/-- The optional leading sign consumed by `parseInt`. -/
def parseSign : List Char → Int × List Char
  | '-' :: t => (-1, t)
  | '+' :: t => (1, t)
  | cs => (1, cs)

/-- `Number.parseInt(value, 10)` (used by the `age` `validRange` rule):
strips leading whitespace, consumes an optional sign and then the leading
decimal digits; yields `none` (JS `NaN`) when there is no leading digit. -/
def parseInt10 (s : String) : Option Int :=
  let cs := s.data.dropWhile jsWhitespace
  let sgn := (parseSign cs).1
  let ds := (parseSign cs).2.takeWhile Char.isDigit
  if ds.isEmpty then none else some (sgn * (natOfDigits ds : Int))

def isHexDigitJs (c : Char) : Bool :=
  c.isDigit || ('a' ≤ c && c ≤ 'f') || ('A' ≤ c && c ≤ 'F')

def hexDigitToNat (c : Char) : Nat :=
  if c.isDigit then c.toNat - 48
  else if 'a' ≤ c then c.toNat - 87
  else c.toNat - 55

def natOfHexDigits (ds : List Char) : Nat :=
  ds.foldl (fun a c => a * 16 + hexDigitToNat c) 0

/-- `Number.parseInt(value)` with no radix argument (used by
`FormComponent.handleSubmit` for `age`): like radix 10, except that a
`0x`/`0X` prefix switches to hexadecimal. -/
def jsParseInt (s : String) : Option Int :=
  let cs := s.data.dropWhile jsWhitespace
  let sgn := (parseSign cs).1
  match (parseSign cs).2 with
  | '0' :: x :: t =>
      if x = 'x' || x = 'X' then
        let ds := t.takeWhile isHexDigitJs
        if ds.isEmpty then none else some (sgn * (natOfHexDigits ds : Int))
      else
        some (sgn * (natOfDigits ((('0' : Char) :: x :: t).takeWhile Char.isDigit) : Int))
  | rest =>
      let ds := rest.takeWhile Char.isDigit
      if ds.isEmpty then none else some (sgn * (natOfDigits ds : Int))

/-- The character class `[^\s@]` of the email regex. -/
def emailChar (c : Char) : Bool := !jsWhitespace c && c != '@'

/-- Splits a character list at the first occurrence of `c`. -/
def splitAtFirst (c : Char) : List Char → Option (List Char × List Char)
  | [] => none
  | x :: xs =>
      if x = c then some ([], xs)
      else (splitAtFirst c xs).map (fun p => (x :: p.1, p.2))

/-- `/^[^\s@]+@[^\s@]+\.[^\s@]+$/.test(value)`: the string splits at its
first `@` into a nonempty local part of `[^\s@]` characters and a domain
part of `[^\s@]` characters containing a `.` that is neither the first nor
the last character of the domain (the classes exclude `@`, so the matched
`@` is necessarily the unique one). -/
def emailFormat (s : String) : Bool :=
  match splitAtFirst '@' s.data with
  | none => false
  | some (a, b) =>
      !a.isEmpty && a.all emailChar && b.all emailChar
        && ((b.drop 1).dropLast.contains '.')

/-- `/^\d{10}$/.test(value)`: exactly ten decimal digits. -/
def phoneFormat (s : String) : Bool :=
  s.data.length == 10 && s.data.all Char.isDigit

/-- `/^\d{5}(-\d{4})?$/.test(value)`: five digits, optionally followed by a
hyphen and four digits. -/
def zipFormat (s : String) : Bool :=
  match s.data with
  | [a, b, c, d, e] => [a, b, c, d, e].all Char.isDigit
  | [a, b, c, d, e, h, f, g, i, j] =>
      [a, b, c, d, e].all Char.isDigit && h == '-' && [f, g, i, j].all Char.isDigit
  | _ => false

def isLeapYear (y : Nat) : Bool :=
  (y % 4 == 0 && y % 100 != 0) || y % 400 == 0

def daysInMonth (y m : Nat) : Nat :=
  if m == 2 then (if isLeapYear y then 29 else 28)
  else if m == 4 || m == 6 || m == 9 || m == 11 then 30
  else 31

/-- Modelled from the platform: `new Date(value)` parsing, restricted to
the ISO `YYYY-MM-DD` format that the form's date input produces; any other
string is treated as an invalid date (`getTime()` is `NaN`), and
`getFullYear()` is taken without timezone adjustment.  Returns the parsed
year. -/
def isoDateYear (s : String) : Option Nat :=
  match s.data with
  | [y1, y2, y3, y4, '-', m1, m2, '-', d1, d2] =>
      if [y1, y2, y3, y4, m1, m2, d1, d2].all Char.isDigit then
        let y := natOfDigits [y1, y2, y3, y4]
        let m := natOfDigits [m1, m2]
        let d := natOfDigits [d1, d2]
        if decide (1 ≤ m ∧ m ≤ 12 ∧ 1 ≤ d ∧ d ≤ daysInMonth y m) then some y else none
      else none
  | _ => none

/-- One entry of the rule table (part_002 lines 4-16). -/
structure ValidationRule where
  logic : String → Bool
  errorMessage : String

/-- `validationRules.name` (part_002 lines 32-45).  `value.length` is the
JS string length; for the strings of this development the Lean character
count coincides. -/
def nameRules : List ValidationRule :=
  [ { logic := fun value => jsTrim value != "", errorMessage := "Name is required" },
    { logic := fun value => decide (3 ≤ value.length),
      errorMessage := "Name must be 3 characters or more" },
    { logic := fun value => decide (value.length ≤ 50),
      errorMessage := "Name must be 50 characters or less" } ]

/-- `validationRules.email` (part_002 lines 46-55). -/
def emailRules : List ValidationRule :=
  [ { logic := fun value => jsTrim value != "", errorMessage := "Email is required" },
    { logic := emailFormat, errorMessage := "Invalid email format" } ]

/-- `validationRules.phone` (part_002 lines 56-65). -/
def phoneRules : List ValidationRule :=
  [ { logic := fun value => jsTrim value != "", errorMessage := "Phone number is required" },
    { logic := phoneFormat, errorMessage := "Phone number must be exactly 10 digits" } ]

/-- `validationRules.dob` (part_002 lines 66-87).  The `ageLimit` rule
reads the current year from `new Date()`; it is threaded as `todayYear`.
When the date is invalid, `getFullYear()` is `NaN` and both range
comparisons are false. -/
def dobRules (todayYear : Int) : List ValidationRule :=
  [ { logic := fun value => jsTrim value != "", errorMessage := "Date of birth is required" },
    { logic := fun value => (isoDateYear value).isSome, errorMessage := "Invalid date format" },
    { logic := fun value =>
        match isoDateYear value with
        | none => false
        | some dobYear =>
            decide (10 ≤ todayYear - (dobYear : Int) ∧ todayYear - (dobYear : Int) ≤ 100),
      errorMessage := "You must be between 10 and 100 years old" } ]

/-- `validationRules.age` (part_002 lines 88-100).  When `parseInt` yields
`NaN`, both range comparisons are false. -/
def ageRules : List ValidationRule :=
  [ { logic := fun value => jsTrim value != "", errorMessage := "Age is required" },
    { logic := fun value =>
        match parseInt10 value with
        | none => false
        | some age => decide (10 ≤ age ∧ age ≤ 100),
      errorMessage := "Age must be between 10 and 100" } ]

/-- `validationRules.country` (part_002 lines 101-106). -/
def countryRules : List ValidationRule :=
  [ { logic := fun value => jsTrim value != "", errorMessage := "Country is required" } ]

/-- `validationRules.state` (part_002 lines 107-112). -/
def stateRules : List ValidationRule :=
  [ { logic := fun value => jsTrim value != "", errorMessage := "State is required" } ]

/-- `validationRules.city` (part_002 lines 113-118). -/
def cityRules : List ValidationRule :=
  [ { logic := fun value => jsTrim value != "", errorMessage := "City is required" } ]

/-- `validationRules.zip` (part_002 lines 119-128). -/
def zipRules : List ValidationRule :=
  [ { logic := fun value => jsTrim value != "", errorMessage := "ZIP code is required" },
    { logic := zipFormat,
      errorMessage := "Invalid ZIP code format (e.g., 12345 or 12345-6789)" } ]

/-- `validationRules` (part_002 lines 31-129) as an association list in the
object's insertion order; `Object.entries` iterates a field's rules in this
per-field order. -/
def validationRules (todayYear : Int) : List (String × List ValidationRule) :=
  [ ("name", nameRules), ("email", emailRules), ("phone", phoneRules),
    ("dob", dobRules todayYear), ("age", ageRules), ("country", countryRules),
    ("state", stateRules), ("city", cityRules), ("zip", zipRules) ]

/-- The `for (... of Object.entries(rules))` loop of `validateField`, with
its early `return rule.errorMessage`. -/
def firstFailing (rules : List ValidationRule) (value : String) : Option String :=
  match rules with
  | [] => none
  | rule :: rest =>
      if rule.logic value then firstFailing rest value else some rule.errorMessage

/-- `validateField` (part_002 lines 139-150): unknown fields yield `null`;
otherwise the rules are scanned in order for the first failure. -/
def validateField (todayYear : Int) (fieldName value : String) : Option String :=
  match List.lookup fieldName (validationRules todayYear) with
  | none => none
  | some rules => firstFailing rules value

/-- The raw field values of one form submission, as read through
`new FormData(form).get(...)` in `FormComponent.handleSubmit`. -/
structure Submission where
  name : String
  phone : String
  email : String
  dob : String
  ageStr : String
  country : String
  state : String
  city : String
  zip : String
deriving DecidableEq, Repr

/-- The record built by `FormComponent.handleSubmit` (part_001 lines
323-352) in create mode: `editId` is `null`, so `id` is
`Date.now().toString()` (decimal milliseconds, threaded as `now`); `age`
is `Number.parseInt` with no radix; `timeStamp` is the submission time. -/
def buildRecord (sub : Submission) (now : Nat) (ts : String) : FormData :=
  { id := toString now
    name := sub.name
    phone := sub.phone
    email := sub.email
    dob := sub.dob
    age := jsParseInt sub.ageStr
    country := sub.country
    state := sub.state
    city := sub.city
    zip := sub.zip
    restoreData := []
    timeStamp := ts }

/-- `FormComponent.validateForm` (part_001 lines 482-501): re-validates the
nine fields in order and succeeds when none of them currently reports an
error. -/
def validateForm (todayYear : Int) (sub : Submission) : Bool :=
  (validateField todayYear "name" sub.name).isNone
    && (validateField todayYear "phone" sub.phone).isNone
    && (validateField todayYear "email" sub.email).isNone
    && (validateField todayYear "dob" sub.dob).isNone
    && (validateField todayYear "age" sub.ageStr).isNone
    && (validateField todayYear "country" sub.country).isNone
    && (validateField todayYear "state" sub.state).isNone
    && (validateField todayYear "city" sub.city).isNone
    && (validateField todayYear "zip" sub.zip).isNone

/-- The `submitCreate` transition: `FormComponent.handleSubmit` in create
mode.  On passing validation it emits `"formSubmit"`, whose only listener
is `AppComponent.addData`; on failing validation nothing is emitted and the
state is unchanged. -/
def submitCreate (todayYear : Int) (sub : Submission) (now : Nat) (ts : String)
    (s : StateMgr) : StateMgr :=
  if validateForm todayYear sub then addData s (buildRecord sub now ts) ts else s

/-- The `EventEmitter` of `EventListener.ts`: the `listeners` object as an
association list from event names to the registered callback arrays.
Callbacks are opaque values of a type `Cb`; JS reference equality
corresponds to equality of those values. -/
structure EventEmitter (Cb : Type) where
  listeners : List (String × List Cb)

/-- A freshly constructed emitter: `listeners` is the empty object. -/
def EventEmitter.new (Cb : Type) : EventEmitter Cb := ⟨[]⟩

/-- The body of `EventEmitter.on` (EventListener.ts lines 22-27): create
the entry if missing, then push the callback (no de-duplication). -/
def addListener {Cb : Type} : List (String × List Cb) → String → Cb → List (String × List Cb)
  | [], e, cb => [(e, [cb])]
  | (n, cbs) :: rest, e, cb =>
      if n = e then (n, cbs ++ [cb]) :: rest else (n, cbs) :: addListener rest e cb

/-- `EventEmitter.on` (EventListener.ts lines 22-27). -/
def EventEmitter.on {Cb : Type} (em : EventEmitter Cb) (eventName : String)
    (cb : Cb) : EventEmitter Cb :=
  ⟨addListener em.listeners eventName cb⟩

/-- The callback array currently registered for an event name (empty when
the entry is missing). -/
def EventEmitter.registered {Cb : Type} (em : EventEmitter Cb) (eventName : String) : List Cb :=
  (List.lookup eventName em.listeners).getD []

/-- `EventEmitter.emit` (EventListener.ts lines 34-39), observed as its
synchronous invocation trace: each callback registered for the name, in
array order, applied to the argument list (modelled opaquely by `A`).
When no entry exists the `forEach` is skipped and nothing is invoked. -/
def EventEmitter.emitCalls {Cb A : Type} (em : EventEmitter Cb) (eventName : String)
    (args : A) : List (Cb × A) :=
  match List.lookup eventName em.listeners with
  | none => []
  | some cbs => cbs.map (fun cb => (cb, args))

/-- A sample valid submission (the field values of the spec's section 8
scenario). -/
def sampleSub : Submission :=
  { name := "Ana"
    phone := "5551234567"
    email := "ana@x.com"
    dob := "2000-01-01"
    ageStr := "24"
    country := "USA"
    state := "California"
    city := "Los Angeles"
    zip := "90001" }

/-- Whether the pending slot holds an array value. -/
def slotIsArray : Slot → Bool
  | Slot.arr _ => true
  | _ => false

/-- A fresh state with four distinct active records and an empty deleted
history. -/
def fourRecordState : StateMgr :=
  ⟨[sampleRec "1", sampleRec "2", sampleRec "3", sampleRec "4"], Slot.null, none, none⟩

/-- Four sequential confirmed deletions (confirmation text `"delete"`
typed each time) of the four records of `fourRecordState`. -/
def afterFourDeletes : StateMgr :=
  confirmDelete (confirmDelete (confirmDelete (confirmDelete fourRecordState
    "delete" (some "1") "T1") "delete" (some "2") "T2") "delete" (some "3") "T3")
    "delete" (some "4") "T4"

/-! ## Helper lemmas -/

/-- `saveData` never changes the in-memory active list. -/
theorem saveData_data (s : StateMgr) (ts : String) : (saveData s ts).data = s.data := by
  cases h : s.deletedData <;> simp [saveData, deleteData, slotTruthy, h]

/-- `saveData` with a falsy pending slot does not touch the stored deleted
history. -/
theorem saveData_storageDeleted_of_null (s : StateMgr) (ts : String)
    (h : s.deletedData = Slot.null) :
    (saveData s ts).storageDeleted = s.storageDeleted := by
  simp [saveData, slotTruthy, h]

/-- Reading the active data right after setting it yields the set list. -/
theorem getData_setData (s : StateMgr) (x : List FormData) (ts : String) :
    getData (setData s x ts) = x := by
  simp [getData, setData, saveData_data]

/-- `findById` misses when no element carries the id. -/
theorem findById_eq_none {l : List FormData} {i : String}
    (h : ∀ r ∈ l, (r.id == i) = false) : findById l i = none := by
  simp only [findById, List.find?_eq_none]
  intro r hr
  simp [h r hr]

/-- `removeById` is the identity when no element carries the id. -/
theorem removeById_of_absent {l : List FormData} {i : String}
    (h : ∀ r ∈ l, (r.id == i) = false) : removeById l i = l := by
  rw [removeById, List.filter_eq_self]
  intro r hr
  simp [bne, h r hr]

/-- `firstFailing` returns the message of the first rule whose logic
rejects the value, and `none` when every rule accepts it. -/
theorem firstFailing_eq_find (rules : List ValidationRule) (value : String) :
    firstFailing rules value
      = (rules.find? (fun rule => !rule.logic value)).map ValidationRule.errorMessage := by
  induction rules with
  | nil => rfl
  | cons r rs ih =>
      cases h : r.logic value <;> simp [firstFailing, List.find?_cons, h, ih]

/-- Looking a name up after `addListener`: the touched entry gained the
callback at the end; other entries are untouched. -/
theorem lookup_addListener {Cb : Type} (l : List (String × List Cb)) (e e' : String) (cb : Cb) :
    List.lookup e' (addListener l e cb)
      = if e' = e then some ((List.lookup e' l).getD [] ++ [cb])
        else List.lookup e' l := by
  induction l with
  | nil =>
      by_cases h : e' = e
      · simp [addListener, List.lookup, h]
      · have hb : (e' == e) = false := by simp [h]
        simp [addListener, List.lookup, h, hb]
  | cons p rest ih =>
      obtain ⟨n, cbs⟩ := p
      by_cases hn : n = e
      · subst hn
        by_cases h : e' = n
        · simp [addListener, List.lookup, h]
        · have hb : (e' == n) = false := by simp [h]
          simp [addListener, List.lookup, h, hb]
      · by_cases h : e' = n
        · subst h
          have hb : (e' == e) = false := by simp [Ne.symm, hn]
          simp [addListener, List.lookup, hn, hb, Ne.symm hn]
        · have hb : (e' == n) = false := by simp [h]
          simp only [addListener, if_neg hn, List.lookup, hb, ih]

/-! ## Claim theorems -/

/-- Claim C6: for every field name and string, `validateField` returns
`null` when the field has no entry in the rule table, and otherwise returns
the error message of the first rule of that field (in table order) whose
logic rejects the value — `null` when every rule accepts it.  The
first-failure semantics (no later rule decides the result) is captured by
`List.find?`. -/
theorem validateField_first_failing_rule (todayYear : Int) (fieldName value : String) :
    validateField todayYear fieldName value
      = match List.lookup fieldName (validationRules todayYear) with
        | none => none
        | some rules =>
            (rules.find? (fun rule => !rule.logic value)).map ValidationRule.errorMessage := by
  unfold validateField
  cases List.lookup fieldName (validationRules todayYear) <;>
    simp [firstFailing_eq_find]

/-- Claim C7: `emit` invokes exactly the callbacks registered for the event
name, each paired with the same argument list, in registration order; a
fresh emitter (and, by the first conjunct, any name with no registrations)
emits nothing; and `on` appends the callback to the event's registration
list without de-duplication — registering the same callback twice appends
it twice, so it is invoked twice. -/
theorem emitter_on_emit_contract {Cb A : Type} (em : EventEmitter Cb)
    (e e' : String) (cb : Cb) (args : A) :
    EventEmitter.emitCalls em e args
        = (EventEmitter.registered em e).map (fun c => (c, args))
    ∧ EventEmitter.emitCalls (EventEmitter.new Cb) e args = ([] : List (Cb × A))
    ∧ EventEmitter.registered (em.on e cb) e'
        = (if e' = e then EventEmitter.registered em e' ++ [cb]
           else EventEmitter.registered em e') := by
  refine ⟨?_, rfl, ?_⟩
  · unfold EventEmitter.emitCalls EventEmitter.registered
    cases List.lookup e em.listeners <;> simp
  · unfold EventEmitter.registered EventEmitter.on
    simp only [lookup_addListener]
    by_cases h : e' = e <;> simp [h]

/-- Claim C8: setting the active data and reading it back yields the same
list, element for element and in order; and two reads with no intervening
write return equal snapshots (`getData` has no state effect). -/
theorem setData_getData_roundtrip (s : StateMgr) (x : List FormData) (ts : String) :
    (getDataOp (setData s x ts)).1 = x
    ∧ (getDataOp s).1 = (getDataOp (getDataOp s).2).1 :=
  ⟨getData_setData s x ts, rfl⟩

/-- Claim C10: `validateField "age" v` is `null` exactly when `v.trim()` is
nonempty and `parseInt(v, 10)` is between 10 and 100 inclusive; in
particular `"15abc"` (valid numeric prefix) passes, while `"abc"` (no
leading digit, so `parseInt` is `NaN`) fails with the range message, not
the required message. -/
theorem age_validation_characterization (todayYear : Int) (value : String) :
    (validateField todayYear "age" value = none ↔
      (jsTrim value ≠ "" ∧ ∃ n : Int, parseInt10 value = some n ∧ 10 ≤ n ∧ n ≤ 100))
    ∧ validateField todayYear "age" "15abc" = none
    ∧ validateField todayYear "age" "abc" = some "Age must be between 10 and 100" := by
  refine ⟨?_, rfl, rfl⟩
  show firstFailing ageRules value = none ↔ _
  by_cases h1 : jsTrim value = ""
  · simp [ageRules, firstFailing, h1]
  · cases hp : parseInt10 value with
    | none => simp [ageRules, firstFailing, h1, hp]
    | some n =>
        by_cases h2 : 10 ≤ n ∧ n ≤ 100
        · simp [ageRules, firstFailing, h1, hp, h2]
        · simp [ageRules, firstFailing, h1, hp, h2]

/-- `findRestoreRow` misses when no stored record entry carries the id. -/
theorem findRestoreRow_eq_none {items : List DItem} {i : String}
    (h : ∀ it ∈ items, recIdIs it i = false) :
    findRestoreRow items i = none := by
  unfold findRestoreRow
  have hf : items.filter (fun it => recIdIs it i) = [] := by
    rw [List.filter_eq_nil_iff]
    intro it hit
    simp [h it hit]
  rw [hf]
  rfl

/-- Claim C9: for an id absent from the relevant collections — the active
set, which the edit/delete/restore handlers consult, and the stored deleted
history, which the table restore flow consults before firing any event —
`editItem` and the table restore flow are complete no-ops, and the delete
and restore handlers leave the active set observed through `getData`
unchanged.  (All of them are total functions: no error is raised.) -/
theorem missing_id_handlers_noop (s : StateMgr) (d : Option FormData) (i ts : String)
    (h : ∀ r ∈ getData s, (r.id == i) = false)
    (hd : ∀ it ∈ getDeletedData s, recIdIs it i = false) :
    editItem ⟨s, d⟩ i = ⟨s, d⟩
    ∧ getData (handleDeleteData s i ts) = getData s
    ∧ getData (handleRestoreDeleteData s i ts) = getData s
    ∧ tableRestore s i ts = s := by
  refine ⟨?_, ?_, ?_, ?_⟩
  · simp [editItem, findById_eq_none h]
  · simp [handleDeleteData, findById_eq_none h, getData_setData, removeById_of_absent h]
  · simp [handleRestoreDeleteData, getData_setData, removeById_of_absent h]
  · simp [tableRestore, findRestoreRow_eq_none hd]

/-- Witness for C9 at a concrete state and the absent id `"9"`. -/
theorem missing_id_handlers_noop_witness :
    (∀ r ∈ getData (⟨[sampleRec "1"], Slot.null, none, some [DItem.obj (sampleRec "1")]⟩ : StateMgr),
        (r.id == "9") = false)
    ∧ (∀ it ∈ getDeletedData (⟨[sampleRec "1"], Slot.null, none, some [DItem.obj (sampleRec "1")]⟩ : StateMgr),
        recIdIs it "9" = false)
    ∧ (editItem ⟨⟨[sampleRec "1"], Slot.null, none, some [DItem.obj (sampleRec "1")]⟩, none⟩ "9"
          = ⟨⟨[sampleRec "1"], Slot.null, none, some [DItem.obj (sampleRec "1")]⟩, none⟩
       ∧ getData (handleDeleteData ⟨[sampleRec "1"], Slot.null, none, some [DItem.obj (sampleRec "1")]⟩ "9" "T")
          = getData (⟨[sampleRec "1"], Slot.null, none, some [DItem.obj (sampleRec "1")]⟩ : StateMgr)
       ∧ getData (handleRestoreDeleteData ⟨[sampleRec "1"], Slot.null, none, some [DItem.obj (sampleRec "1")]⟩ "9" "T")
          = getData (⟨[sampleRec "1"], Slot.null, none, some [DItem.obj (sampleRec "1")]⟩ : StateMgr)
       ∧ tableRestore ⟨[sampleRec "1"], Slot.null, none, some [DItem.obj (sampleRec "1")]⟩ "9" "T"
          = ⟨[sampleRec "1"], Slot.null, none, some [DItem.obj (sampleRec "1")]⟩) :=
  ⟨by decide, by decide,
    missing_id_handlers_noop ⟨[sampleRec "1"], Slot.null, none, some [DItem.obj (sampleRec "1")]⟩
      none "9" "T" (by decide) (by decide)⟩

/-- Counterexample for claim C5: the id generated by `submitCreate` is
`Date.now().toString()`, which is *not* guaranteed distinct from
pre-existing ids.  With a pre-existing record of id `"1000"` and a
submission at millisecond 1000, the position-0 record receives the id
`"1000"` already present in the active set. -/
theorem submitCreate_id_collision_cex :
    (getData (submitCreate 2024 sampleSub 1000 "T"
        ⟨[sampleRec "1000"], Slot.null, none, none⟩)).map FormData.id
      = ["1000", "1000"] := by
  rfl

/-- Claim C5 (amended): for every valid submission, `submitCreate` prepends
a record whose string fields equal the submitted values verbatim (`age`
being the integer `parseInt` of the submitted age string), and whose id —
the stringified submission time — is distinct from every pre-existing
active id *provided* no pre-existing record already carries that string;
all pre-existing records are preserved in order after it. -/
theorem submitCreate_prepends_unique_id (todayYear : Int) (sub : Submission)
    (now : Nat) (ts : String) (s : StateMgr)
    (hv : validateForm todayYear sub = true)
    (hid : ∀ r ∈ getData s, r.id ≠ toString now) :
    getData (submitCreate todayYear sub now ts s) = buildRecord sub now ts :: getData s
    ∧ (buildRecord sub now ts).name = sub.name
    ∧ (buildRecord sub now ts).phone = sub.phone
    ∧ (buildRecord sub now ts).email = sub.email
    ∧ (buildRecord sub now ts).dob = sub.dob
    ∧ (buildRecord sub now ts).age = jsParseInt sub.ageStr
    ∧ (buildRecord sub now ts).country = sub.country
    ∧ (buildRecord sub now ts).state = sub.state
    ∧ (buildRecord sub now ts).city = sub.city
    ∧ (buildRecord sub now ts).zip = sub.zip
    ∧ ∀ r ∈ getData s, r.id ≠ (buildRecord sub now ts).id := by
  refine ⟨?_, rfl, rfl, rfl, rfl, rfl, rfl, rfl, rfl, rfl, hid⟩
  simp [submitCreate, hv, addData, getData_setData]

/-- Witness for the amended C5 at the spec's section 8 scenario. -/
theorem submitCreate_prepends_witness :
    validateForm 2024 sampleSub = true
    ∧ (∀ r ∈ getData (⟨[sampleRec "999"], Slot.null, none, none⟩ : StateMgr),
        r.id ≠ toString 1000)
    ∧ getData (submitCreate 2024 sampleSub 1000 "T" ⟨[sampleRec "999"], Slot.null, none, none⟩)
        = buildRecord sampleSub 1000 "T" :: getData (⟨[sampleRec "999"], Slot.null, none, none⟩ : StateMgr) :=
  ⟨by decide, by decide,
    (submitCreate_prepends_unique_id 2024 sampleSub 1000 "T"
      ⟨[sampleRec "999"], Slot.null, none, none⟩ (by decide) (by decide)).1⟩

/-- Claim C1 is violated by the code: starting from empty storage,
`setDeletedData([r])` leaves the persisted deleted history equal to
`[[r]]` — the passed array pushed as one *nested* element onto the
previously stored history — so the immediately following `getDeletedData()`
does not return `[r]`. -/
theorem setDeletedData_nests_history :
    getDeletedData (setDeletedData (loadData none none) [DItem.obj (sampleRec "1")] "T")
      = [DItem.arr [DItem.obj (sampleRec "1")]]
    ∧ [DItem.arr [DItem.obj (sampleRec "1")]] ≠ [DItem.obj (sampleRec "1")] := by
  refine ⟨rfl, ?_⟩
  intro hcontra
  simp at hcontra

/-- Claim C2 is violated by the code: four sequential confirmed deletions
of the four distinct records, starting from an empty deleted history, leave
`getDeletedData()` with **4** top-level entries (each a nested array, the
stored history is never replaced, only appended to), not 3. -/
theorem four_confirmed_deletes_history_length :
    (getDeletedData afterFourDeletes).length = 4
    ∧ getData afterFourDeletes = [] := by
  exact ⟨by decide, by decide⟩

/-- Claim C4 is violated by the code: right after construction
(`loadData`) with a non-absent stored deleted history, the pending slot
`deletedData` holds the whole parsed history *array*, not at most one
record. -/
theorem loadData_slot_holds_array :
    (loadData none (some [DItem.obj (sampleRec "1")])).deletedData
      = Slot.arr [DItem.obj (sampleRec "1")]
    ∧ slotIsArray (loadData none (some [DItem.obj (sampleRec "1")])).deletedData = true :=
  ⟨rfl, rfl⟩

/-- `findById` skips a prefix in which no record carries the id. -/
theorem findById_append_absent {P l : List FormData} {i : String}
    (h : ∀ r ∈ P, (r.id == i) = false) :
    findById (P ++ l) i = findById l i := by
  induction P with
  | nil => rfl
  | cons a as ih =>
      have ha : (a.id == i) = false := h a (by simp)
      have ih' := ih (fun r hr => h r (by simp [hr]))
      simpa [findById, List.find?_cons, ha] using ih'

/-- `findById` finds a record standing at the head. -/
theorem findById_cons_self (l : List FormData) (R : FormData) :
    findById (R :: l) R.id = some R := by
  simp [findById, List.find?_cons]

theorem removeById_append (a b : List FormData) (i : String) :
    removeById (a ++ b) i = removeById a i ++ removeById b i := by
  simp [removeById, List.filter_append]

theorem removeById_cons_self (l : List FormData) (R : FormData) :
    removeById (R :: l) R.id = removeById l R.id := by
  simp [removeById, List.filter_cons]

/-- `findRestoreRow` skips stored entries that do not carry the id. -/
theorem findRestoreRow_append_absent {D0 : List DItem} (l : List DItem) {i : String}
    (h : ∀ it ∈ D0, recIdIs it i = false) :
    findRestoreRow (D0 ++ l) i = findRestoreRow l i := by
  unfold findRestoreRow
  have hf : D0.filter (fun it => recIdIs it i) = [] := by
    rw [List.filter_eq_nil_iff]
    intro it hit
    simp [h it hit]
  rw [List.filter_append, hf, List.nil_append]

/-- `findRestoreRow` finds a stored record entry carrying the id. -/
theorem findRestoreRow_single_match (r : FormData) :
    findRestoreRow [DItem.obj r] r.id = some r := by
  simp [findRestoreRow, recIdIs, List.filter_cons]

/-- `handleDeleteData` on a state whose active list contains exactly one
record with the requested id: the record is removed from the active list,
staged, and flushed — stamped with the deletion time — onto the end of the
stored deleted history; whatever the pending slot held before is
overwritten and lost. -/
theorem handleDeleteData_found (P Q : List FormData) (R : FormData) (sl : Slot)
    (sd : Option (List FormData)) (dd : Option (List DItem)) (ts : String)
    (hP : ∀ r ∈ P, (r.id == R.id) = false)
    (hQ : ∀ r ∈ Q, (r.id == R.id) = false) :
    handleDeleteData ⟨P ++ R :: Q, sl, sd, dd⟩ R.id ts
      = ⟨P ++ Q, Slot.null, some (P ++ Q),
         some (dd.getD [] ++ [DItem.obj { R with timeStamp := ts }])⟩ := by
  have hfind : findById (P ++ R :: Q) R.id = some R := by
    rw [findById_append_absent hP, findById_cons_self]
  have hrem : removeById (P ++ R :: Q) R.id = P ++ Q := by
    rw [removeById_append, removeById_cons_self, removeById_of_absent hP,
        removeById_of_absent hQ]
  simp [handleDeleteData, getData, hfind, hrem, setData, saveData, slotTruthy,
        deleteData, getDeletedData]

/-- The table restore flow on the state left by a delete: the stored row is
found (no earlier stored entry carries the id), `handleRestoreDeleteData`
leaves the active list unchanged (the id is absent from it), and the stored
row is prepended by `addData`; the stored deleted history is untouched. -/
theorem tableRestore_after_delete (P Q : List FormData) (R' : FormData)
    (D0 : List DItem) (ts : String)
    (hP : ∀ r ∈ P, (r.id == R'.id) = false)
    (hQ : ∀ r ∈ Q, (r.id == R'.id) = false)
    (hD : ∀ it ∈ D0, recIdIs it R'.id = false) :
    tableRestore ⟨P ++ Q, Slot.null, some (P ++ Q), some (D0 ++ [DItem.obj R'])⟩ R'.id ts
      = ⟨R' :: (P ++ Q), Slot.null, some (R' :: (P ++ Q)),
         some (D0 ++ [DItem.obj R'])⟩ := by
  have hrow : findRestoreRow (D0 ++ [DItem.obj R']) R'.id = some R' := by
    rw [findRestoreRow_append_absent _ hD, findRestoreRow_single_match]
  have hrem : removeById (P ++ Q) R'.id = P ++ Q := by
    rw [removeById_append, removeById_of_absent hP, removeById_of_absent hQ]
  simp [tableRestore, getDeletedData, hrow, handleRestoreDeleteData, getData, hrem,
        setData, saveData, slotTruthy, addData]

/-- Counterexample for claim C3: starting from the active set
`[R, S]` (ids `"1"`, `"2"`) with empty history, deleting `R` and then
restoring id `"1"` through the table restore flow yields the active set
`[R stamped with the deletion time, S]` — the restored record is
*prepended*, not appended, and its `timeStamp` was overwritten — which is
not the claimed `[S, R]`; and the deleted history *still* contains an entry
with id `"1"`. -/
theorem delete_restore_roundtrip_cex :
    getData (tableRestore (handleDeleteData
        ⟨[sampleRec "1", sampleRec "2"], Slot.null, none, none⟩ "1" "T1") "1" "T2")
      = [{ sampleRec "1" with timeStamp := "T1" }, sampleRec "2"]
    ∧ getData (tableRestore (handleDeleteData
        ⟨[sampleRec "1", sampleRec "2"], Slot.null, none, none⟩ "1" "T1") "1" "T2")
      ≠ [sampleRec "2", sampleRec "1"]
    ∧ (getDeletedData (tableRestore (handleDeleteData
        ⟨[sampleRec "1", sampleRec "2"], Slot.null, none, none⟩ "1" "T1") "1" "T2")).any
        (fun it => recIdIs it "1") = true := by
  refine ⟨by decide, by decide, by decide⟩

/-- Claim C3 (amended): for an active set `P ++ R :: Q` in which only `R`
carries its id, deleting `R` (via the `"deleteData"` event) and then
restoring that id through the table restore flow yields the active set with
`R` — its `timeStamp` replaced by the deletion stamp — *prepended* at the
front and every other record unchanged in order; and the deleted history
*still* contains the entry with that id (the restore flow removes nothing
from the stored history). -/
theorem delete_then_restore_roundtrip (P Q : List FormData) (R : FormData) (sl : Slot)
    (sd : Option (List FormData)) (dd : Option (List DItem)) (ts1 ts2 : String)
    (hP : ∀ r ∈ P, (r.id == R.id) = false)
    (hQ : ∀ r ∈ Q, (r.id == R.id) = false)
    (hD : ∀ it ∈ dd.getD [], recIdIs it R.id = false) :
    getData (tableRestore (handleDeleteData ⟨P ++ R :: Q, sl, sd, dd⟩ R.id ts1) R.id ts2)
        = { R with timeStamp := ts1 } :: (P ++ Q)
    ∧ getDeletedData (tableRestore (handleDeleteData ⟨P ++ R :: Q, sl, sd, dd⟩ R.id ts1) R.id ts2)
        = dd.getD [] ++ [DItem.obj { R with timeStamp := ts1 }] := by
  rw [handleDeleteData_found P Q R sl sd dd ts1 hP hQ,
      tableRestore_after_delete P Q { R with timeStamp := ts1 } (dd.getD []) ts2 hP hQ hD]
  exact ⟨rfl, rfl⟩

/-- Witness for the amended C3 at a concrete three-record state. -/
theorem delete_then_restore_witness :
    getData (tableRestore (handleDeleteData
        ⟨[sampleRec "7"] ++ sampleRec "1" :: [sampleRec "9"], Slot.null, none, none⟩
        (sampleRec "1").id "T1") (sampleRec "1").id "T2")
      = { sampleRec "1" with timeStamp := "T1" } :: ([sampleRec "7"] ++ [sampleRec "9"])
    ∧ getDeletedData (tableRestore (handleDeleteData
        ⟨[sampleRec "7"] ++ sampleRec "1" :: [sampleRec "9"], Slot.null, none, none⟩
        (sampleRec "1").id "T1") (sampleRec "1").id "T2")
      = (none : Option (List DItem)).getD []
          ++ [DItem.obj { sampleRec "1" with timeStamp := "T1" }] :=
  delete_then_restore_roundtrip [sampleRec "7"] [sampleRec "9"] (sampleRec "1")
    Slot.null none none "T1" "T2" (by decide) (by decide) (by decide)
